import Mathlib

/-!
# ControllerRESTMapper and DirectApplier

A shallow embedding of `pkg/restmapper/controllerrestmapper.go` and of the
resolver wiring of `pkg/patterns/declarative/pkg/applier/direct.go`.

Go pointers that may be nil are `Option`s, a Go `(value, error)` result is a
pair of `Option`s (so that all four nil/non-nil combinations exist), and the
mutable cache behind `m.cache` is passed explicitly as state.
-/

set_option autoImplicit false

namespace Schema

/-- The type `schema.GroupKind`. -/
structure GroupKind where
  Group : String
  Kind : String
deriving DecidableEq, Repr

/-- The type `schema.GroupVersion`. -/
structure GroupVersion where
  Group : String
  Version : String
deriving DecidableEq, Repr

/-- The type `schema.GroupVersionKind`. -/
structure GroupVersionKind where
  Group : String
  Version : String
  Kind : String
deriving DecidableEq, Repr

/-- The type `schema.GroupVersionResource`. -/
structure GroupVersionResource where
  Group : String
  Version : String
  Resource : String
deriving DecidableEq, Repr

end Schema

namespace Meta

/-- The two scopes of `meta.RESTScope`: `RESTScopeNamespace` and `RESTScopeRoot`. -/
inductive RESTScope where
  | Namespace
  | Root
deriving DecidableEq, Repr

/-- The type `meta.RESTMapping`: the resource, the kind it was resolved from, and the scope. -/
structure RESTMapping where
  Resource : Schema.GroupVersionResource
  GroupVersionKind : Schema.GroupVersionKind
  Scope : RESTScope
deriving DecidableEq, Repr

end Meta

/-- Go `error` values that occur in the mapper: `*meta.NoKindMatchError`, the value of a
`fmt.Errorf` call with a constant message, and any other error (of type `E`) that a callee
hands back. A nil `error` is `none : Option (Error E)`. -/
inductive Error (E : Type) where
  | NoKindMatchError (GroupKind : Schema.GroupKind) (SearchedVersions : List String)
  | Errorf (msg : String)
  | other (e : E)
deriving DecidableEq, Repr

/-- A Go result `(*meta.RESTMapping, error)`; either component may be nil. -/
abbrev MappingResult (E : Type) : Type := Option Meta.RESTMapping × Option (Error E)

/-- The signature of `cache.findRESTMapping(ctx, discovery, gv, kind)`: it reads and may
update the cache of type `C`, talks to the discovery client of type `D`, and returns a mapping
and an error. `ctx` is always `context.TODO()` and is left out. -/
abbrev FindRESTMapping (D C E : Type) : Type :=
  C → D → Schema.GroupVersion → String → MappingResult E × C

/-- The struct `ControllerRESTMapper`: the discovery client and the cache. -/
structure ControllerRESTMapper (D C : Type) where
  uncached : D
  cache : C

namespace ControllerRESTMapper

variable {D C E : Type}

/-- Method `KindFor`, lines 37-39. -/
def KindFor (_m : ControllerRESTMapper D C) (_resource : Schema.GroupVersionResource) :
    Schema.GroupVersionKind × Option (Error E) :=
  (⟨"", "", ""⟩, some (.Errorf "ControllerRESTMaper does not support KindFor operation"))

/-- Method `KindsFor`, lines 42-44. The nil slice is the empty list. -/
def KindsFor (_m : ControllerRESTMapper D C) (_resource : Schema.GroupVersionResource) :
    List Schema.GroupVersionKind × Option (Error E) :=
  ([], some (.Errorf "ControllerRESTMaper does not support KindsFor operation"))

/-- Method `ResourceFor`, lines 47-49. -/
def ResourceFor (_m : ControllerRESTMapper D C) (_input : Schema.GroupVersionResource) :
    Schema.GroupVersionResource × Option (Error E) :=
  (⟨"", "", ""⟩, some (.Errorf "ControllerRESTMaper does not support ResourceFor operation"))

/-- Method `ResourcesFor`, lines 52-54. -/
def ResourcesFor (_m : ControllerRESTMapper D C) (_input : Schema.GroupVersionResource) :
    List Schema.GroupVersionResource × Option (Error E) :=
  ([], some (.Errorf "ControllerRESTMaper does not support ResourcesFor operation"))

/-- The `for` loop of `RESTMapping`, lines 60-71, over the versions still to be probed.
`versions` is the whole argument list, which the final `NoKindMatchError` reports. -/
def RESTMappingLoop (find : FindRESTMapping D C E) (uncached : D) (gk : Schema.GroupKind)
    (versions : List String) : C → List String → MappingResult E × C
  | cache, [] => ((none, some (.NoKindMatchError gk versions)), cache)
  | cache, version :: rest =>
    match find cache uncached ⟨gk.Group, version⟩ gk.Kind with
    | ((_, some err), cache1) => ((none, some err), cache1)
    | ((some mapping, none), cache1) => ((some mapping, none), cache1)
    | ((none, none), cache1) => RESTMappingLoop find uncached gk versions cache1 rest

/-- Method `RESTMapping`, lines 57-72. The lookup `m.cache.findRESTMapping` is the parameter `find`;
the result comes with the mapper whose cache the lookups have updated. -/
def RESTMapping (find : FindRESTMapping D C E) (m : ControllerRESTMapper D C)
    (gk : Schema.GroupKind) (versions : List String) :
    MappingResult E × ControllerRESTMapper D C :=
  let r := RESTMappingLoop find m.uncached gk versions m.cache versions
  (r.1, { m with cache := r.2 })

/-- Method `RESTMappings`, lines 77-79. -/
def RESTMappings (_m : ControllerRESTMapper D C) (_gk : Schema.GroupKind)
    (_versions : List String) : List Meta.RESTMapping × Option (Error E) :=
  ([], some (.Errorf "ControllerRESTMaper does not support RESTMappings operation"))

/-- Method `ResourceSingularizer`, lines 81-83. -/
def ResourceSingularizer (_m : ControllerRESTMapper D C) (_resource : String) :
    String × Option (Error E) :=
  ("", some (.Errorf "ControllerRESTMaper does not support ResourceSingularizer operation"))

end ControllerRESTMapper

/-! ## Observing the lookups of one `RESTMapping` call -/

section Observation

variable {D C E : Type}

/-- The cache as it is when the lookup for `versions[i]` is issued, all earlier lookups
having been issued in order from `cache`. -/
def cacheAt (find : FindRESTMapping D C E) (uncached : D) (gk : Schema.GroupKind) :
    C → List String → Nat → C
  | cache, [], _ => cache
  | cache, _ :: _, 0 => cache
  | cache, version :: rest, i + 1 =>
    cacheAt find uncached gk (find cache uncached ⟨gk.Group, version⟩ gk.Kind).2 rest i

/-- What the lookup for `versions[i]` returns when it is issued after the lookups for
`versions[0..i-1]`; `none` when `i` is out of range. -/
def lookupAt (find : FindRESTMapping D C E) (uncached : D) (gk : Schema.GroupKind)
    (cache : C) (versions : List String) (i : Nat) : Option (MappingResult E) :=
  versions[i]?.map fun version =>
    (find (cacheAt find uncached gk cache versions i) uncached ⟨gk.Group, version⟩ gk.Kind).1

/-- A lookup that also records its arguments: the state is the cache together with the list of
`(gv, kind)` pairs looked up so far, oldest first. -/
def recording (find : FindRESTMapping D C E) :
    FindRESTMapping D (C × List (Schema.GroupVersion × String)) E :=
  fun st uncached gv kind =>
    let r := find st.1 uncached gv kind
    (r.1, (r.2, st.2 ++ [(gv, kind)]))

end Observation

/-! ## The mapping cache

The file that defines `cache`, `newCache` and `cache.findRESTMapping` is not among the sources;
the definitions of this section follow sections 3, 4.1 and 6 of the specification. -/

namespace Cache

/-- Modelled from the spec: one element of the enumeration `listResourcesFor(group, version)`
of section 6, a triple (kind, resource-name, scope). The discovery client's own type is not
among the sources. -/
structure APIResource where
  Kind : String
  Name : String
  Namespaced : Bool
deriving DecidableEq, Repr

/-- Modelled from the spec: the discovery transport of section 6, `listResourcesFor`, which
yields the ordered enumeration of a group/version or fails with a transport error. The
discovery client behind `m.uncached` is not among the sources. -/
abbrev Discovery (E : Type) : Type := Schema.GroupVersion → Except (Error E) (List APIResource)

/-- Modelled from the spec: the Mapping of section 3 built from one enumerated resource, its
TypeReference and ResourceReference sharing the group and version of the enumeration. The
code that builds mappings is not among the sources. -/
def mappingOf (gv : Schema.GroupVersion) (r : APIResource) : Meta.RESTMapping :=
  { Resource := ⟨gv.Group, gv.Version, r.Name⟩
    GroupVersionKind := ⟨gv.Group, gv.Version, r.Kind⟩
    Scope := if r.Namespaced then .Namespace else .Root }

/-- Modelled from the spec: the GroupVersionEntry of section 3, the mappings enumerated for
one group/version at fetch time plus a validity flag. The struct is not among the sources. -/
structure GroupVersionEntry where
  mappings : List Meta.RESTMapping
  valid : Bool
deriving DecidableEq, Repr

/-- Modelled from the spec: the Cache of section 3, at most one entry per (group, version),
the type `cache` that `newCache` builds and that is not among the sources. `fetches` and
`retries` count the transport calls and the retries after invalidation made so far; they are
observations, the lookup never reads them. -/
structure State where
  groupVersions : Schema.GroupVersion → Option GroupVersionEntry
  fetches : Nat
  retries : Nat

/-- Modelled from the spec: `newCache`, the cache with no entry; its source is not among
the files. -/
def newCache : State :=
  { groupVersions := fun _ => none, fetches := 0, retries := 0 }

/-- Modelled from the spec: step 1 of section 4.1, the valid entry stored for a group/version,
if any; part of the absent `cache.findRESTMapping`. -/
def State.entry (c : State) (gv : Schema.GroupVersion) : Option GroupVersionEntry :=
  (c.groupVersions gv).filter fun e => e.valid

/-- Modelled from the spec: storing an entry overwrites the one of the same key wholesale
(section 3); part of the absent `cache.findRESTMapping`. -/
def State.store (c : State) (gv : Schema.GroupVersion) (e : GroupVersionEntry) : State :=
  { c with groupVersions := fun k => if k = gv then some e else c.groupVersions k }

/-- Modelled from the spec: invalidation removes the entry (section 3, lifecycle); part of the
absent `cache.findRESTMapping`. -/
def State.invalidate (c : State) (gv : Schema.GroupVersion) : State :=
  { c with groupVersions := fun k => if k = gv then none else c.groupVersions k }

/-- Modelled from the spec: step 3 of section 4.1, the scan of an entry for the first mapping
whose kind matches; part of the absent `cache.findRESTMapping`. -/
def GroupVersionEntry.scan (e : GroupVersionEntry) (kind : String) : Option Meta.RESTMapping :=
  e.mappings.find? fun mp => decide (mp.GroupVersionKind.Kind = kind)

/-- Modelled from the spec: steps 2 and 3 of section 4.1 on an absent entry: fetch the
enumeration, propagate a transport error unchanged, otherwise store the entry and scan it; a
kind missing from the entry just fetched is NotFound, the pair (nil, nil) that `RESTMapping`
treats as a miss. Part of the absent `cache.findRESTMapping`. -/
def fetchAndScan {E : Type} (c : State) (discovery : Discovery E) (gv : Schema.GroupVersion)
    (kind : String) : MappingResult E × State :=
  match discovery gv with
  | .error e => ((none, some e), { c with fetches := c.fetches + 1 })
  | .ok resources =>
    let e : GroupVersionEntry := { mappings := resources.map (mappingOf gv), valid := true }
    ((e.scan kind, none), { c.store gv e with fetches := c.fetches + 1 })

/-- Modelled from the spec: `findMapping` of section 4.1, the method `cache.findRESTMapping`
whose source is not among the files. An absent entry is fetched and scanned; a cached entry is
scanned, and when the kind is missing from it the entry is invalidated and fetched once
more. -/
def findRESTMapping {E : Type} : FindRESTMapping (Discovery E) State E :=
  fun c discovery gv kind =>
    match c.entry gv with
    | none => fetchAndScan c discovery gv kind
    | some e =>
      match e.scan kind with
      | some mapping => ((some mapping, none), c)
      | none =>
        fetchAndScan { c.invalidate gv with retries := c.retries + 1 } discovery gv kind

/-- A cache populated from the transport `discovery`: every valid entry holds the mappings of
the transport's enumeration for its group/version. -/
def PopulatedFrom {E : Type} (discovery : Discovery E) (c : State) : Prop :=
  ∀ gv e, c.entry gv = some e →
    ∃ resources, discovery gv = .ok resources ∧ e.mappings = resources.map (mappingOf gv)

/-- The cache states that a cache working against the transport `discovery` can be in before a
lookup: the cache of `newCache`, and the cache left by a lookup on such a state. -/
inductive Reachable {E : Type} (discovery : Discovery E) : State → Prop where
  | newCache : Reachable discovery newCache
  | lookup (c : State) (gv : Schema.GroupVersion) (kind : String) :
      Reachable discovery c → Reachable discovery (findRESTMapping c discovery gv kind).2

end Cache

/-! ## The resolver wiring of `DirectApplier` -/

namespace Applier

/-- The fields of `ApplierOptions` that `direct.go` reads; the struct itself is declared in
another file of the package. `M` is `meta.RESTMapper`, `R` is `rest.Config`. -/
structure ApplierOptions (M R : Type) where
  Manifest : String
  RESTConfig : Option R
  RESTMapper : Option M
  Namespace : String
  Validate : Bool

/-- The struct `staticRESTClientGetter`, lines 87-91. -/
structure staticRESTClientGetter (M R DC : Type) where
  RESTConfig : Option R
  DiscoveryClient : Option DC
  RESTMapper : Option M

/-- Method `ToRESTConfig`, lines 95-100. -/
def staticRESTClientGetter.ToRESTConfig {M R DC : Type} (s : staticRESTClientGetter M R DC) :
    Except String R :=
  match s.RESTConfig with
  | none => .error "RESTConfig not set"
  | some c => .ok c

/-- Method `ToDiscoveryClient`, lines 101-106. -/
def staticRESTClientGetter.ToDiscoveryClient {M R DC : Type}
    (s : staticRESTClientGetter M R DC) : Except String DC :=
  match s.DiscoveryClient with
  | none => .error "DiscoveryClient not set"
  | some c => .ok c

/-- Method `ToRESTMapper`, lines 107-112. -/
def staticRESTClientGetter.ToRESTMapper {M R DC : Type} (s : staticRESTClientGetter M R DC) :
    Except String M :=
  match s.RESTMapper with
  | none => .error "RESTMapper not set"
  | some c => .ok c

/-- What `direct.go` sets of `genericclioptions.ConfigFlags`: the `Namespace` pointer, nil
unless `opt.Namespace` is non-empty (lines 44-47 and 119-122). -/
structure ConfigFlags where
  Namespace : Option String
deriving DecidableEq, Repr

/-- The calls `direct.go` makes into the kubectl and cli-runtime libraries, each with the
values of this package that reach it. `X` is the libraries' error, `V` a validator, `I` a list
of `resource.Info`, `O` a completed `apply.ApplyOptions`. -/
structure Kubectl (M R DC X V I O : Type) where
  /-- The call `cmdutil.NewFactory(kubeConfigFlags).Validator(opt.Validate)`, line 49. -/
  Validator : ConfigFlags → Bool → Except X V
  /-- The call `resource.NewBuilder(restClientGetter)` with `Schema(v)`, `Unstructured()`,
  `Stream(ioReader, ...)`, `Do()` and `Infos()`, lines 42-56. -/
  Infos : staticRESTClientGetter M R DC → V → String → Except X I
  /-- The loop that visits every info with `resource.SetNamespace`, lines 63-68. -/
  SetNamespace : String → I → Except X I
  /-- The call `applyOpts.Run()` on options with `Namespace` and the objects set, lines 71-83. -/
  RunObjects : String → I → Option X
  /-- The call `fmt.Errorf` with a format and the error it wraps. -/
  Errorf : String → X → X
  /-- The call `cmd.Flags().Set("validate", "false")` on the command of the factory, lines 127-128. -/
  SetValidate : ConfigFlags → Option X
  /-- The call `opts.Complete(factory, cmd)`, line 136; the factory is built from the config flags. -/
  Complete : ConfigFlags → Except X O
  /-- The builder chain of `factory.NewBuilder()` over the manifest and its `Visit`,
  lines 140-154. -/
  Visit : ConfigFlags → O → String → Option X
  /-- The call `opts.Run()`, line 156. -/
  Run : O → Option X

variable {M R DC X V I O : Type}

/-- The config flags of lines 44-47 and 119-122. -/
def kubeConfigFlags (opt : ApplierOptions M R) : ConfigFlags :=
  { Namespace := if opt.Namespace ≠ "" then some opt.Namespace else none }

/-- The `restClientGetter` that `ApplyOld` hands to `resource.NewBuilder`, lines 38-42. -/
def ApplyOldGetter (opt : ApplierOptions M R) : staticRESTClientGetter M R DC :=
  { RESTMapper := opt.RESTMapper, RESTConfig := opt.RESTConfig, DiscoveryClient := none }

/-- Method `DirectApplier.ApplyOld`, lines 30-84; the result is the returned error, `none` for nil. -/
def ApplyOld (lib : Kubectl M R DC X V I O) (opt : ApplierOptions M R) : Option X :=
  match lib.Validator (kubeConfigFlags opt) opt.Validate with
  | .error err => some err
  | .ok v =>
    match lib.Infos (ApplyOldGetter opt) v opt.Manifest with
    | .error err => some err
    | .ok infos =>
      if opt.Namespace ≠ "" then
        match lib.SetNamespace opt.Namespace infos with
        | .error err => some (lib.Errorf "error from SetNamespace: %w" err)
        | .ok infos1 => lib.RunObjects opt.Namespace infos1
      else
        lib.RunObjects opt.Namespace infos

/-- Method `DirectApplier.Apply`, lines 114-157; the result is the returned error, `none` for nil.
The factory, the command and the builder are all made from `kubeConfigFlags`; the result of
the `Visit` of line 149 is dropped. -/
def Apply (lib : Kubectl M R DC X V I O) (opt : ApplierOptions M R) : Option X :=
  match lib.SetValidate (kubeConfigFlags opt) with
  | some err => some err
  | none =>
    match lib.Complete (kubeConfigFlags opt) with
    | .error err => some (lib.Errorf "failed to complete apply options: %+v" err)
    | .ok opts =>
      let _ := lib.Visit (kubeConfigFlags opt) opts opt.Manifest
      lib.Run opts

end Applier

/-! ## A concrete transport

The scenario of section 8 of the specification: the transport knows group `apps`, version
`v1`, kind `Deployment`, resource `deployments`, namespaced. Version `v2` serves the same
kind, version `v3` fails, and every other group/version enumerates nothing. -/

namespace Demo

/-- The transport of the scenario. -/
def discovery : Cache.Discovery String := fun gv =>
  if gv = ⟨"apps", "v1"⟩ then
    .ok [⟨"Deployment", "deployments", true⟩, ⟨"StatefulSet", "statefulsets", true⟩]
  else if gv = ⟨"apps", "v2"⟩ then .ok [⟨"Deployment", "deployments", true⟩]
  else if gv = ⟨"apps", "v3"⟩ then .error (.other "connection refused")
  else .ok []

/-- A mapper over the transport of the scenario, its cache empty. -/
def mapper : ControllerRESTMapper (Cache.Discovery String) Cache.State :=
  { uncached := discovery, cache := Cache.newCache }

/-- The mapping of `apps/v1` `Deployment`. -/
def deployments : Meta.RESTMapping :=
  { Resource := ⟨"apps", "v1", "deployments"⟩
    GroupVersionKind := ⟨"apps", "v1", "Deployment"⟩
    Scope := .Namespace }

/-- The group/kind `apps` `Deployment`. -/
def deploymentKind : Schema.GroupKind := ⟨"apps", "Deployment"⟩

/-- The cache of the scenario after one lookup of `apps/v1` `Deployment`. -/
def warm : Cache.State :=
  (Cache.findRESTMapping (E := String) Cache.newCache discovery ⟨"apps", "v1"⟩ "Deployment").2

/-- A lookup without state that misses on every version but `v1`, where it returns a mapping
together with an error. -/
def mappingAndError : FindRESTMapping Unit Unit String := fun c _ gv _ =>
  if gv.Version = "v1" then ((some deployments, some (.other "stale read")), c)
  else ((none, none), c)

/-- A lookup without state that serves `Deployment` of group `apps` at version `v1` only. -/
def onlyV1 : FindRESTMapping Unit Unit String := fun c _ gv kind =>
  if gv = ⟨"apps", "v1"⟩ ∧ kind = "Deployment" then ((some deployments, none), c)
  else ((none, none), c)

/-- Applier options that differ in the mapper only; mappers are told apart by a number. -/
def options (mapper : Option Nat) : Applier.ApplierOptions Nat Unit :=
  { Manifest := "kind: Deployment", RESTConfig := some (), RESTMapper := mapper,
    Namespace := "", Validate := false }

/-- A stand-in for the libraries in which only mapper `1` resolves the manifest, and in which
the factory made from config flags resolves nothing. -/
def kubectl : Applier.Kubectl Nat Unit Unit String Unit (Option Nat) (Option Nat) :=
  { Validator := fun _ _ => .ok ()
    Infos := fun getter _ _ =>
      match getter.ToRESTMapper with
      | .ok mapper => .ok (some mapper)
      | .error err => .error err
    SetNamespace := fun _ infos => .ok infos
    RunObjects := fun _ infos => if infos = some 1 then none else some "no matches for kind"
    Errorf := fun format err => format ++ err
    SetValidate := fun _ => none
    Complete := fun _ => .ok none
    Visit := fun _ _ _ => none
    Run := fun opts => if opts = some 1 then none else some "no matches for kind" }

end Demo

/-! ## Lemmas on the loop of `RESTMapping` -/

section LoopLemmas

variable {D C E : Type}

open ControllerRESTMapper

theorem lookupAt_zero (find : FindRESTMapping D C E) (d : D) (gk : Schema.GroupKind) (c : C)
    (v : String) (rest : List String) :
    lookupAt find d gk c (v :: rest) 0 = some (find c d ⟨gk.Group, v⟩ gk.Kind).1 := by
  simp [lookupAt, cacheAt]

theorem lookupAt_succ (find : FindRESTMapping D C E) (d : D) (gk : Schema.GroupKind) (c : C)
    (v : String) (rest : List String) (j : Nat) :
    lookupAt find d gk c (v :: rest) (j + 1)
      = lookupAt find d gk (find c d ⟨gk.Group, v⟩ gk.Kind).2 rest j := by
  simp [lookupAt, cacheAt]

/-- One step of the loop when the lookup misses. -/
theorem RESTMappingLoop_miss (find : FindRESTMapping D C E) (d : D) (gk : Schema.GroupKind)
    (all : List String) (c : C) (v : String) (rest : List String)
    (h : (find c d ⟨gk.Group, v⟩ gk.Kind).1 = (none, none)) :
    RESTMappingLoop find d gk all c (v :: rest)
      = RESTMappingLoop find d gk all (find c d ⟨gk.Group, v⟩ gk.Kind).2 rest := by
  generalize hf : find c d ⟨gk.Group, v⟩ gk.Kind = r at h
  obtain ⟨⟨mo, eo⟩, c1⟩ := r
  simp only [Prod.mk.injEq] at h
  obtain ⟨rfl, rfl⟩ := h
  simp [RESTMappingLoop, hf]

/-- One step of the loop when the lookup returns an error. -/
theorem RESTMappingLoop_err (find : FindRESTMapping D C E) (d : D) (gk : Schema.GroupKind)
    (all : List String) (c : C) (v : String) (rest : List String) (e : Error E)
    (h : (find c d ⟨gk.Group, v⟩ gk.Kind).1.2 = some e) :
    RESTMappingLoop find d gk all c (v :: rest)
      = ((none, some e), (find c d ⟨gk.Group, v⟩ gk.Kind).2) := by
  generalize hf : find c d ⟨gk.Group, v⟩ gk.Kind = r at h
  obtain ⟨⟨mo, eo⟩, c1⟩ := r
  simp only at h
  subst h
  simp [RESTMappingLoop, hf]

/-- One step of the loop when the lookup returns a mapping and no error. -/
theorem RESTMappingLoop_hit (find : FindRESTMapping D C E) (d : D) (gk : Schema.GroupKind)
    (all : List String) (c : C) (v : String) (rest : List String) (mp : Meta.RESTMapping)
    (h : (find c d ⟨gk.Group, v⟩ gk.Kind).1 = (some mp, none)) :
    RESTMappingLoop find d gk all c (v :: rest)
      = ((some mp, none), (find c d ⟨gk.Group, v⟩ gk.Kind).2) := by
  generalize hf : find c d ⟨gk.Group, v⟩ gk.Kind = r at h
  obtain ⟨⟨mo, eo⟩, c1⟩ := r
  simp only [Prod.mk.injEq] at h
  obtain ⟨rfl, rfl⟩ := h
  simp [RESTMappingLoop, hf]

/-- The loop passes over a prefix of misses: it continues from the cache those lookups leave,
on the versions that remain. -/
theorem RESTMappingLoop_skip (find : FindRESTMapping D C E) (d : D) (gk : Schema.GroupKind)
    (all : List String) :
    ∀ (versions : List String) (c : C) (i : Nat),
      (∀ j, j < i → lookupAt find d gk c versions j = some (none, none)) →
      RESTMappingLoop find d gk all c versions
        = RESTMappingLoop find d gk all (cacheAt find d gk c versions i) (versions.drop i) := by
  intro versions
  induction versions with
  | nil => intro c i _; simp [cacheAt]
  | cons v rest ih =>
    intro c i h
    cases i with
    | zero => simp [cacheAt]
    | succ i =>
      have h0 := h 0 (Nat.succ_pos i)
      rw [lookupAt_zero] at h0
      have h0 : (find c d ⟨gk.Group, v⟩ gk.Kind).1 = (none, none) := Option.some.inj h0
      rw [RESTMappingLoop_miss find d gk all c v rest h0]
      have hrest : ∀ j, j < i →
          lookupAt find d gk (find c d ⟨gk.Group, v⟩ gk.Kind).2 rest j = some (none, none) := by
        intro j hj
        rw [← lookupAt_succ]
        exact h (j + 1) (Nat.succ_lt_succ hj)
      rw [ih _ i hrest]
      simp [cacheAt]

/-- The lookup at an index in range, spelled out on the versions that remain there. -/
theorem lookupAt_drop (find : FindRESTMapping D C E) (d : D) (gk : Schema.GroupKind) (c : C)
    (versions : List String) (i : Nat) (r : MappingResult E)
    (h : lookupAt find d gk c versions i = some r) :
    ∃ v rest, versions.drop i = v :: rest ∧
      (find (cacheAt find d gk c versions i) d ⟨gk.Group, v⟩ gk.Kind).1 = r := by
  unfold lookupAt at h
  cases hv : versions[i]? with
  | none => simp [hv] at h
  | some v =>
    rw [hv] at h
    simp only [Option.map_some', Option.some.injEq] at h
    have hi : i < versions.length := by
      rcases Nat.lt_or_ge i versions.length with hlt | hge
      · exact hlt
      · rw [List.getElem?_eq_none hge] at hv; cases hv
    refine ⟨v, versions.drop (i + 1), ?_, h⟩
    rw [List.drop_eq_getElem_cons hi]
    rw [List.getElem?_eq_getElem hi] at hv
    simp only [Option.some.injEq] at hv
    rw [hv]

end LoopLemmas

/-! ## The resolver: `RESTMapping` -/

section Resolver

variable {D C E : Type}

open ControllerRESTMapper

/-- The result of `RESTMapping` when the lookups before index `i` all miss and the lookup at
`i` returns `r`, which is not a miss: an error of `r` is returned alone, otherwise the
mapping of `r`. -/
theorem RESTMapping_at_first_stop (find : FindRESTMapping D C E) (m : ControllerRESTMapper D C)
    (gk : Schema.GroupKind) (versions : List String) (i : Nat) (r : MappingResult E)
    (hat : lookupAt find m.uncached gk m.cache versions i = some r)
    (hmiss : ∀ j, j < i → lookupAt find m.uncached gk m.cache versions j = some (none, none)) :
    (∀ e, r.2 = some e → (RESTMapping find m gk versions).1 = (none, some e)) ∧
    (∀ mp, r = (some mp, none) → (RESTMapping find m gk versions).1 = (some mp, none)) := by
  obtain ⟨v, rest, hdrop, hv⟩ := lookupAt_drop find m.uncached gk m.cache versions i r hat
  have hskip := RESTMappingLoop_skip find m.uncached gk versions versions m.cache i hmiss
  constructor
  · intro e he
    simp only [RESTMapping]
    rw [hskip, hdrop, RESTMappingLoop_err find m.uncached gk versions _ v rest e (by rw [hv, he])]
  · intro mp hmp
    simp only [RESTMapping]
    rw [hskip, hdrop, RESTMappingLoop_hit find m.uncached gk versions _ v rest mp (by rw [hv, hmp])]

/-- Claim C1. `RESTMapping` returns the first hit in the order of the caller: when the lookup
for `versions[i]` returns a mapping `mp` with a nil error and the lookups for
`versions[0..i-1]` all returned (nil, nil), the result is `mp` with a nil error, whatever
the versions after `i` would yield. -/
theorem RESTMapping_returns_first_hit (find : FindRESTMapping D C E)
    (m : ControllerRESTMapper D C) (gk : Schema.GroupKind) (versions : List String) (i : Nat)
    (mp : Meta.RESTMapping)
    (hhit : lookupAt find m.uncached gk m.cache versions i = some (some mp, none))
    (hmiss : ∀ j, j < i → lookupAt find m.uncached gk m.cache versions j = some (none, none)) :
    (RESTMapping find m gk versions).1 = (some mp, none) :=
  (RESTMapping_at_first_stop find m gk versions i _ hhit hmiss).2 mp rfl

/-- Claim C2. When the lookup for every candidate version is a miss (nil, nil), also for the
empty list, `RESTMapping` returns a nil mapping and a `NoKindMatchError` whose `GroupKind` is
`gk` and whose `SearchedVersions` is the whole list `versions`. -/
theorem RESTMapping_all_miss_NoKindMatchError (find : FindRESTMapping D C E)
    (m : ControllerRESTMapper D C) (gk : Schema.GroupKind) (versions : List String)
    (hmiss : ∀ j, j < versions.length →
      lookupAt find m.uncached gk m.cache versions j = some (none, none)) :
    (RESTMapping find m gk versions).1 = (none, some (.NoKindMatchError gk versions)) := by
  have hskip :=
    RESTMappingLoop_skip find m.uncached gk versions versions m.cache versions.length hmiss
  simp only [RESTMapping]
  rw [hskip, List.drop_length]
  simp [RESTMappingLoop]

/-- Claim C3. When the lookup for `versions[i]` returns the error `e` and every earlier lookup
was a miss, `RESTMapping` returns a nil mapping and the same `e`, whatever the versions after
`i` would yield. -/
theorem RESTMapping_propagates_first_error (find : FindRESTMapping D C E)
    (m : ControllerRESTMapper D C) (gk : Schema.GroupKind) (versions : List String) (i : Nat)
    (mo : Option Meta.RESTMapping) (e : Error E)
    (herr : lookupAt find m.uncached gk m.cache versions i = some (mo, some e))
    (hmiss : ∀ j, j < i → lookupAt find m.uncached gk m.cache versions j = some (none, none)) :
    (RESTMapping find m gk versions).1 = (none, some e) :=
  (RESTMapping_at_first_stop find m gk versions i _ herr hmiss).1 e rfl

end Resolver

/-- The instance of claim C1 on the scenario: `v1beta1` misses, `v1` hits and is returned,
although `v2` would hit as well. -/
theorem RESTMapping_returns_first_hit_witness :
    lookupAt Cache.findRESTMapping Demo.mapper.uncached Demo.deploymentKind Demo.mapper.cache
        ["v1beta1", "v1", "v2"] 2
      = some (some (Cache.mappingOf ⟨"apps", "v2"⟩ ⟨"Deployment", "deployments", true⟩), none) ∧
    (ControllerRESTMapper.RESTMapping Cache.findRESTMapping Demo.mapper Demo.deploymentKind
        ["v1beta1", "v1", "v2"]).1 = (some Demo.deployments, none) :=
  ⟨by decide,
   RESTMapping_returns_first_hit Cache.findRESTMapping Demo.mapper Demo.deploymentKind
    ["v1beta1", "v1", "v2"] 1 Demo.deployments (by decide)
    (by intro j hj; obtain rfl : j = 0 := by omega
        decide)⟩

/-- The instance of claim C2 on the scenario: `apps` `Widget` at `v1` is no match, and the
error lists `v1`. -/
theorem RESTMapping_all_miss_NoKindMatchError_witness :
    (ControllerRESTMapper.RESTMapping Cache.findRESTMapping Demo.mapper ⟨"apps", "Widget"⟩
        ["v1"]).1 = (none, some (.NoKindMatchError ⟨"apps", "Widget"⟩ ["v1"])) :=
  RESTMapping_all_miss_NoKindMatchError Cache.findRESTMapping Demo.mapper ⟨"apps", "Widget"⟩
    ["v1"]
    (by intro j hj; obtain rfl : j = 0 := by simpa using hj
        decide)

/-- The instance of claim C3 on the scenario: `v1beta1` misses, the fetch for `v3` fails and
its error is returned, although `v1` would hit. -/
theorem RESTMapping_propagates_first_error_witness :
    lookupAt Cache.findRESTMapping Demo.mapper.uncached Demo.deploymentKind Demo.mapper.cache
        ["v1beta1", "v3", "v1"] 2 = some (some Demo.deployments, none) ∧
    (ControllerRESTMapper.RESTMapping Cache.findRESTMapping Demo.mapper Demo.deploymentKind
        ["v1beta1", "v3", "v1"]).1 = (none, some (.other "connection refused")) :=
  ⟨by decide,
   RESTMapping_propagates_first_error Cache.findRESTMapping Demo.mapper Demo.deploymentKind
    ["v1beta1", "v3", "v1"] 1 none (.other "connection refused") (by decide)
    (by intro j hj; obtain rfl : j = 0 := by omega
        decide)⟩

section ResolverShape

variable {D C E : Type}

open ControllerRESTMapper

/-- The loop ends with a mapping and no error, or with an error and no mapping. -/
theorem RESTMappingLoop_mapping_xor_error (find : FindRESTMapping D C E) (d : D)
    (gk : Schema.GroupKind) (all : List String) :
    ∀ (rest : List String) (c : C),
      (∃ mp, (RESTMappingLoop find d gk all c rest).1 = (some mp, none)) ∨
      (∃ e, (RESTMappingLoop find d gk all c rest).1 = (none, some e)) := by
  intro rest
  induction rest with
  | nil => intro c; exact Or.inr ⟨_, rfl⟩
  | cons v rest ih =>
    intro c
    rcases hf : find c d ⟨gk.Group, v⟩ gk.Kind with ⟨⟨mo, eo⟩, c1⟩
    cases eo with
    | some e =>
      rw [RESTMappingLoop_err find d gk all c v rest e (by rw [hf])]
      exact Or.inr ⟨e, rfl⟩
    | none =>
      cases mo with
      | some mp =>
        rw [RESTMappingLoop_hit find d gk all c v rest mp (by rw [hf])]
        exact Or.inl ⟨mp, rfl⟩
      | none =>
        rw [RESTMappingLoop_miss find d gk all c v rest (by rw [hf])]
        exact ih _

/-- Claim C10. Whatever the lookup does, `RESTMapping` returns either a mapping with a nil
error or a nil mapping with an error, never (nil, nil) and never both; and when the first
lookup that is not a miss returns a mapping together with an error, the error is returned and
the mapping is dropped. -/
theorem RESTMapping_mapping_xor_error (find : FindRESTMapping D C E)
    (m : ControllerRESTMapper D C) (gk : Schema.GroupKind) (versions : List String) :
    ((∃ mp, (RESTMapping find m gk versions).1 = (some mp, none)) ∨
      (∃ e, (RESTMapping find m gk versions).1 = (none, some e))) ∧
    (RESTMapping find m gk versions).1 ≠ (none, none) ∧
    (∀ mp e, (RESTMapping find m gk versions).1 ≠ (some mp, some e)) ∧
    (∀ i mp e,
      lookupAt find m.uncached gk m.cache versions i = some (some mp, some e) →
      (∀ j, j < i → lookupAt find m.uncached gk m.cache versions j = some (none, none)) →
      (RESTMapping find m gk versions).1 = (none, some e)) := by
  have hxor := RESTMappingLoop_mapping_xor_error find m.uncached gk versions versions m.cache
  have hxor : (∃ mp, (RESTMapping find m gk versions).1 = (some mp, none)) ∨
      (∃ e, (RESTMapping find m gk versions).1 = (none, some e)) := hxor
  refine ⟨hxor, ?_, ?_, ?_⟩
  · rcases hxor with ⟨mp, h⟩ | ⟨e, h⟩ <;> rw [h] <;> simp
  · intro mp e
    rcases hxor with ⟨mp1, h⟩ | ⟨e1, h⟩ <;> rw [h] <;> simp
  · intro i mp e hat hmiss
    exact (RESTMapping_at_first_stop find m gk versions i _ hat hmiss).1 e rfl

/-- The loop over a recording lookup: the result and the cache are those of the loop over the
lookup itself, and the record grows by the versions probed, a prefix of the versions given that
ends at the first lookup that is not a miss. -/
theorem RESTMappingLoop_recording (find : FindRESTMapping D C E) (d : D)
    (gk : Schema.GroupKind) (all : List String) :
    ∀ (rest : List String) (c : C) (log : List (Schema.GroupVersion × String)),
      ∃ n, n ≤ rest.length ∧
        RESTMappingLoop (recording find) d gk all (c, log) rest
          = ((RESTMappingLoop find d gk all c rest).1,
             ((RESTMappingLoop find d gk all c rest).2,
              log ++ (rest.take n).map fun v => (⟨gk.Group, v⟩, gk.Kind))) ∧
        (∀ j, j + 1 < n → lookupAt find d gk c rest j = some (none, none)) ∧
        ((n = rest.length ∧ ∀ j, j < n → lookupAt find d gk c rest j = some (none, none)) ∨
          (0 < n ∧ ∃ r, lookupAt find d gk c rest (n - 1) = some r ∧ r ≠ (none, none))) := by
  intro rest
  induction rest with
  | nil =>
    intro c log
    refine ⟨0, Nat.le_refl _, ?_, ?_, ?_⟩
    · simp [RESTMappingLoop]
    · intro j hj; omega
    · left; exact ⟨rfl, fun j hj => absurd hj (Nat.not_lt_zero j)⟩
  | cons v rest ih =>
    intro c log
    have hrec : recording find (c, log) d ⟨gk.Group, v⟩ gk.Kind
        = ((find c d ⟨gk.Group, v⟩ gk.Kind).1,
           ((find c d ⟨gk.Group, v⟩ gk.Kind).2, log ++ [(⟨gk.Group, v⟩, gk.Kind)])) := rfl
    rcases hf : find c d ⟨gk.Group, v⟩ gk.Kind with ⟨⟨mo, eo⟩, c1⟩
    rw [hf] at hrec
    have hstop : ∀ r : MappingResult E, r = (mo, eo) → r ≠ (none, none) →
        (0 : Nat) < 1 ∧ ∃ r, lookupAt find d gk c (v :: rest) (1 - 1) = some r ∧
          r ≠ (none, none) := by
      intro r hr hne
      refine ⟨Nat.one_pos, r, ?_, hne⟩
      rw [Nat.sub_self, lookupAt_zero, hf, hr]
    cases eo with
    | some e =>
      refine ⟨1, by simp, ?_, ?_, Or.inr (hstop _ rfl (by simp))⟩
      · rw [RESTMappingLoop_err (recording find) d gk all (c, log) v rest e (by rw [hrec]),
          RESTMappingLoop_err find d gk all c v rest e (by rw [hf]), hrec, hf]
        simp
      · intro j hj; omega
    | none =>
      cases mo with
      | some mp =>
        refine ⟨1, by simp, ?_, ?_, Or.inr (hstop _ rfl (by simp))⟩
        · rw [RESTMappingLoop_hit (recording find) d gk all (c, log) v rest mp (by rw [hrec]),
            RESTMappingLoop_hit find d gk all c v rest mp (by rw [hf]), hrec, hf]
          simp
        · intro j hj; omega
      | none =>
        obtain ⟨n, hn, heq, hbefore, hend⟩ := ih c1 (log ++ [(⟨gk.Group, v⟩, gk.Kind)])
        have hc1 : (find c d ⟨gk.Group, v⟩ gk.Kind).2 = c1 := by rw [hf]
        have h0 : lookupAt find d gk c (v :: rest) 0 = some (none, none) := by
          rw [lookupAt_zero, hf]
        have hshift : ∀ j, lookupAt find d gk c (v :: rest) (j + 1)
            = lookupAt find d gk c1 rest j := by
          intro j; rw [lookupAt_succ, hc1]
        have hall : ∀ k, (∀ j, j < k → lookupAt find d gk c1 rest j = some (none, none)) →
            ∀ j, j < k + 1 → lookupAt find d gk c (v :: rest) j = some (none, none) := by
          intro k hk j hj
          cases j with
          | zero => exact h0
          | succ j => rw [hshift]; exact hk j (by omega)
        refine ⟨n + 1, by simp; omega, ?_, ?_, ?_⟩
        · rw [RESTMappingLoop_miss (recording find) d gk all (c, log) v rest (by rw [hrec]),
            RESTMappingLoop_miss find d gk all c v rest (by rw [hf]), hrec, hf]
          simp only
          rw [heq]
          simp
        · intro j hj
          cases j with
          | zero => exact h0
          | succ j => rw [hshift]; exact hbefore j (by omega)
        · rcases hend with ⟨hlen, hmiss⟩ | ⟨hpos, r, hr, hne⟩
          · left
            exact ⟨by simp [hlen], hall n hmiss⟩
          · right
            refine ⟨Nat.succ_pos n, r, ?_, hne⟩
            obtain ⟨k, rfl⟩ : ∃ k, n = k + 1 := ⟨n - 1, by omega⟩
            rw [Nat.add_sub_cancel] at hr ⊢
            rw [hshift]; exact hr

end ResolverShape

section ResolverTrace

variable {D C E : Type}

open ControllerRESTMapper

/-- Claim C9. The lookups issued by one `RESTMapping` call, recorded in order, are exactly the
first `n` candidate versions, each with group `gk.Group` and kind `gk.Kind` and each once:
every lookup before the last recorded one missed, and either all of `versions` was probed and
missed or the last recorded lookup returned a mapping or an error, after which no version is
looked up. Recording changes neither the result nor the cache. With candidates `v2`, `v1` where
`v2` misses and `v1` hits, the record is `v2` then `v1` and the `v1` mapping is returned. -/
theorem RESTMapping_lookups_are_initial_segment (find : FindRESTMapping D C E)
    (m : ControllerRESTMapper D C) (gk : Schema.GroupKind) (versions : List String) :
    (∃ n, n ≤ versions.length ∧
      (RESTMapping (recording find) ⟨m.uncached, (m.cache, [])⟩ gk versions).2.cache.2
        = ((versions.take n).map fun v => (⟨gk.Group, v⟩, gk.Kind)) ∧
      (∀ j, j + 1 < n → lookupAt find m.uncached gk m.cache versions j = some (none, none)) ∧
      ((n = versions.length ∧
          ∀ j, j < n → lookupAt find m.uncached gk m.cache versions j = some (none, none)) ∨
        (0 < n ∧ ∃ r, lookupAt find m.uncached gk m.cache versions (n - 1) = some r ∧
          r ≠ (none, none)))) ∧
    (RESTMapping (recording find) ⟨m.uncached, (m.cache, [])⟩ gk versions).1
      = (RESTMapping find m gk versions).1 ∧
    (RESTMapping (recording find) ⟨m.uncached, (m.cache, [])⟩ gk versions).2.cache.1
      = (RESTMapping find m gk versions).2.cache ∧
    (∀ (mp : Meta.RESTMapping) (c1 c2 : C),
      find m.cache m.uncached ⟨gk.Group, "v2"⟩ gk.Kind = ((none, none), c1) →
      find c1 m.uncached ⟨gk.Group, "v1"⟩ gk.Kind = ((some mp, none), c2) →
      (RESTMapping (recording find) ⟨m.uncached, (m.cache, [])⟩ gk ["v2", "v1"]).2.cache.2
        = [(⟨gk.Group, "v2"⟩, gk.Kind), (⟨gk.Group, "v1"⟩, gk.Kind)] ∧
      (RESTMapping find m gk ["v2", "v1"]).1 = (some mp, none)) := by
  obtain ⟨n, hn, heq, hbefore, hend⟩ :=
    RESTMappingLoop_recording find m.uncached gk versions versions m.cache []
  refine ⟨⟨n, hn, ?_, hbefore, hend⟩, ?_, ?_, ?_⟩
  · simp only [RESTMapping]; rw [heq]; simp
  · simp only [RESTMapping]; rw [heq]
  · simp only [RESTMapping]; rw [heq]
  · intro mp c1 c2 h2 h1
    have hr2 : recording find (m.cache, []) m.uncached ⟨gk.Group, "v2"⟩ gk.Kind
        = ((none, none), (c1, [(⟨gk.Group, "v2"⟩, gk.Kind)])) := by
      simp [recording, h2]
    have hr1 : recording find (c1, [(⟨gk.Group, "v2"⟩, gk.Kind)]) m.uncached
          ⟨gk.Group, "v1"⟩ gk.Kind
        = ((some mp, none), (c2, [(⟨gk.Group, "v2"⟩, gk.Kind), (⟨gk.Group, "v1"⟩, gk.Kind)])) := by
      simp [recording, h1]
    constructor
    · simp [RESTMapping, RESTMappingLoop, hr2, hr1]
    · simp [RESTMapping, RESTMappingLoop, h2, h1]

/-- Claim C4. Each unsupported operation returns, for every mapper and every argument, the
zero value of its result type together with a non-nil error, and that error is one fixed value
per operation, the same for all arguments and all caches. -/
theorem unsupported_operations_fixed_error (m : ControllerRESTMapper D C)
    (resource : Schema.GroupVersionResource) (gk : Schema.GroupKind) (versions : List String)
    (name : String) :
    KindFor m resource
      = (⟨"", "", ""⟩,
         some (Error.Errorf (E := E) "ControllerRESTMaper does not support KindFor operation")) ∧
    KindsFor m resource
      = ([],
         some (Error.Errorf (E := E) "ControllerRESTMaper does not support KindsFor operation")) ∧
    ResourceFor m resource
      = (⟨"", "", ""⟩,
         some (Error.Errorf (E := E)
          "ControllerRESTMaper does not support ResourceFor operation")) ∧
    ResourcesFor m resource
      = ([],
         some (Error.Errorf (E := E)
          "ControllerRESTMaper does not support ResourcesFor operation")) ∧
    RESTMappings m gk versions
      = ([],
         some (Error.Errorf (E := E)
          "ControllerRESTMaper does not support RESTMappings operation")) ∧
    ResourceSingularizer m name
      = ("",
         some (Error.Errorf (E := E)
          "ControllerRESTMaper does not support ResourceSingularizer operation")) :=
  ⟨rfl, rfl, rfl, rfl, rfl, rfl⟩

/-- Claim C5, as amended. `RESTMappings` returns no mapping and its fixed error for every group
kind and every list of versions, the empty list included, also where `RESTMapping` on the same
arguments returns a mapping. -/
theorem RESTMappings_always_unsupported (find : FindRESTMapping D C E)
    (m : ControllerRESTMapper D C) (gk : Schema.GroupKind) (versions : List String) :
    (RESTMappings (E := E) m gk versions).1 = [] ∧
    (RESTMappings m gk versions).2
      = some (Error.Errorf (E := E)
          "ControllerRESTMaper does not support RESTMappings operation") ∧
    RESTMappings (E := E) (RESTMapping find m gk versions).2 gk versions
      = RESTMappings m gk [] :=
  ⟨rfl, rfl, rfl⟩

end ResolverTrace

/-- The instance of claim C10 on a lookup that returns a mapping together with an error at
`v1`, after a miss at `v0`. -/
theorem RESTMapping_mapping_xor_error_witness :
    (ControllerRESTMapper.RESTMapping Demo.mappingAndError ⟨(), ()⟩ Demo.deploymentKind
        ["v0", "v1"]).1 = (none, some (.other "stale read")) :=
  (RESTMapping_mapping_xor_error Demo.mappingAndError ⟨(), ()⟩ Demo.deploymentKind
    ["v0", "v1"]).2.2.2 1 Demo.deployments (.other "stale read") (by decide)
    (by intro j hj; obtain rfl : j = 0 := by omega
        decide)

/-- The instance of claim C9 on candidates `v2`, `v1` where only `v1` is served. -/
theorem RESTMapping_lookups_are_initial_segment_witness :
    (ControllerRESTMapper.RESTMapping (recording Demo.onlyV1) ⟨(), ((), [])⟩
        Demo.deploymentKind ["v2", "v1"]).2.cache.2
      = [(⟨"apps", "v2"⟩, "Deployment"), (⟨"apps", "v1"⟩, "Deployment")] ∧
    (ControllerRESTMapper.RESTMapping Demo.onlyV1 ⟨(), ()⟩ Demo.deploymentKind
        ["v2", "v1"]).1 = (some Demo.deployments, none) :=
  (RESTMapping_lookups_are_initial_segment Demo.onlyV1 ⟨(), ()⟩ Demo.deploymentKind
    ["v2", "v1"]).2.2.2 Demo.deployments () () (by decide) (by decide)

/-- Claim C5 fails as stated: `RESTMapping` resolves `apps` `Deployment` at `v1`, yet
`RESTMappings` on the same arguments, and on the empty list of versions, returns an empty
list and a non-nil error. -/
theorem RESTMappings_counterexample :
    (ControllerRESTMapper.RESTMapping Cache.findRESTMapping Demo.mapper Demo.deploymentKind
        ["v1"]).1 = (some Demo.deployments, none) ∧
    ¬ ((ControllerRESTMapper.RESTMappings (E := String) Demo.mapper Demo.deploymentKind
          ["v1"]).1 ≠ [] ∧
       (ControllerRESTMapper.RESTMappings (E := String) Demo.mapper Demo.deploymentKind
          ["v1"]).2 = none) ∧
    (ControllerRESTMapper.RESTMappings (E := String) Demo.mapper Demo.deploymentKind []).2
      ≠ none := by
  refine ⟨by decide, ?_, ?_⟩
  · rintro ⟨h, -⟩; exact h rfl
  · simp [ControllerRESTMapper.RESTMappings]

/-! ## The mapping cache: lookup of present and absent kinds -/

namespace Cache

variable {E : Type}

/-- Scanning the entry built from an enumeration finds the mapping of the first enumerated
resource of that kind. -/
theorem scan_enumeration (gv : Schema.GroupVersion) (resources : List APIResource)
    (valid : Bool) (kind : String) :
    GroupVersionEntry.scan ⟨resources.map (mappingOf gv), valid⟩ kind
      = (resources.find? fun r => decide (r.Kind = kind)).map (mappingOf gv) := by
  simp only [GroupVersionEntry.scan, List.find?_map]
  rfl

/-- The counters are not part of what a lookup reads. -/
theorem entry_counters (c : State) (f r : Nat) (gv : Schema.GroupVersion) :
    State.entry { c with fetches := f, retries := r } gv = c.entry gv := rfl

theorem entry_store (c : State) (gv k : Schema.GroupVersion) (e : GroupVersionEntry)
    (he : e.valid = true) :
    (c.store gv e).entry k = if k = gv then some e else c.entry k := by
  unfold State.entry State.store
  by_cases hk : k = gv
  · simp [hk, Option.filter, he]
  · simp [hk]

theorem entry_invalidate (c : State) (gv k : Schema.GroupVersion) :
    (c.invalidate gv).entry k = if k = gv then none else c.entry k := by
  unfold State.entry State.invalidate
  by_cases hk : k = gv
  · simp [hk, Option.filter]
  · simp [hk]

/-- The empty cache is populated from every transport. -/
theorem populatedFrom_newCache (discovery : Discovery E) : PopulatedFrom discovery newCache := by
  intro gv e h
  simp [newCache, State.entry, Option.filter] at h

theorem populatedFrom_invalidate (discovery : Discovery E) (c : State)
    (gv : Schema.GroupVersion) (r : Nat) (h : PopulatedFrom discovery c) :
    PopulatedFrom discovery { c.invalidate gv with retries := r } := by
  intro k e hk
  have hk : (c.invalidate gv).entry k = some e := hk
  rw [entry_invalidate] at hk
  by_cases hkg : k = gv
  · simp [hkg] at hk
  · simp only [hkg, if_false] at hk
    exact h k e hk

theorem populatedFrom_fetchAndScan (discovery : Discovery E) (c : State)
    (gv : Schema.GroupVersion) (kind : String) (h : PopulatedFrom discovery c) :
    PopulatedFrom discovery (fetchAndScan c discovery gv kind).2 := by
  unfold fetchAndScan
  cases hd : discovery gv with
  | error err => exact h
  | ok resources =>
    intro k e hk
    have hk : (c.store gv ⟨resources.map (mappingOf gv), true⟩).entry k = some e := hk
    rw [entry_store _ _ _ _ rfl] at hk
    by_cases hkg : k = gv
    · simp only [hkg, if_true, Option.some.injEq] at hk
      subst hkg
      exact ⟨resources, hd, by rw [← hk]⟩
    · simp only [hkg, if_false] at hk
      exact h k e hk

/-- The lookup when no valid entry is cached. -/
theorem findRESTMapping_absent (discovery : Discovery E) (c : State)
    (gv : Schema.GroupVersion) (kind : String) (h : c.entry gv = none) :
    findRESTMapping c discovery gv kind = fetchAndScan c discovery gv kind := by
  simp only [findRESTMapping, h]

/-- The lookup when the cached entry holds the kind. -/
theorem findRESTMapping_cached_hit (discovery : Discovery E) (c : State)
    (gv : Schema.GroupVersion) (kind : String) (e : GroupVersionEntry) (mp : Meta.RESTMapping)
    (h : c.entry gv = some e) (hs : e.scan kind = some mp) :
    findRESTMapping c discovery gv kind = ((some mp, none), c) := by
  simp only [findRESTMapping, h, hs]

/-- The lookup when the cached entry lacks the kind. -/
theorem findRESTMapping_cached_miss (discovery : Discovery E) (c : State)
    (gv : Schema.GroupVersion) (kind : String) (e : GroupVersionEntry)
    (h : c.entry gv = some e) (hs : e.scan kind = none) :
    findRESTMapping c discovery gv kind
      = fetchAndScan { c.invalidate gv with retries := c.retries + 1 } discovery gv kind := by
  simp only [findRESTMapping, h, hs]

/-- A lookup leaves a cache populated from the transport populated from it: every cache state
that lookups reach from `newCache` is one. -/
theorem populatedFrom_findRESTMapping (discovery : Discovery E) (c : State)
    (gv : Schema.GroupVersion) (kind : String) (h : PopulatedFrom discovery c) :
    PopulatedFrom discovery (findRESTMapping c discovery gv kind).2 := by
  cases hentry : c.entry gv with
  | none =>
    rw [findRESTMapping_absent discovery c gv kind hentry]
    exact populatedFrom_fetchAndScan discovery c gv kind h
  | some e =>
    cases hscan : e.scan kind with
    | some mp =>
      rw [findRESTMapping_cached_hit discovery c gv kind e mp hentry hscan]
      exact h
    | none =>
      rw [findRESTMapping_cached_miss discovery c gv kind e hentry hscan]
      exact populatedFrom_fetchAndScan discovery _ gv kind
        (populatedFrom_invalidate discovery c gv _ h)

/-- The lookup on an absent entry, the transport answering. -/
theorem fetchAndScan_ok (discovery : Discovery E) (c : State) (gv : Schema.GroupVersion)
    (kind : String) (resources : List APIResource) (hd : discovery gv = .ok resources) :
    (fetchAndScan c discovery gv kind).1
        = ((resources.find? fun r => decide (r.Kind = kind)).map (mappingOf gv), none) ∧
      (fetchAndScan c discovery gv kind).2.fetches = c.fetches + 1 ∧
      (fetchAndScan c discovery gv kind).2.retries = c.retries := by
  unfold fetchAndScan
  rw [hd]
  exact ⟨by simp only [scan_enumeration], rfl, rfl⟩

/-- The lookup on an absent entry, the transport failing. -/
theorem fetchAndScan_error (discovery : Discovery E) (c : State) (gv : Schema.GroupVersion)
    (kind : String) (err : Error E) (hd : discovery gv = .error err) :
    (fetchAndScan c discovery gv kind).1 = (none, some err) ∧
      (fetchAndScan c discovery gv kind).2.fetches = c.fetches + 1 := by
  unfold fetchAndScan
  rw [hd]
  exact ⟨rfl, rfl⟩

/-- On a cache populated from the transport, the lookup returns the mapping of the first
enumerated resource of the kind, or (nil, nil) when there is none; it fetches at most once. -/
theorem findRESTMapping_populated (discovery : Discovery E) (c : State)
    (gv : Schema.GroupVersion) (kind : String) (resources : List APIResource)
    (hpop : PopulatedFrom discovery c) (hd : discovery gv = .ok resources) :
    (findRESTMapping c discovery gv kind).1
        = ((resources.find? fun r => decide (r.Kind = kind)).map (mappingOf gv), none) := by
  cases hentry : c.entry gv with
  | none =>
    rw [findRESTMapping_absent discovery c gv kind hentry]
    exact (fetchAndScan_ok discovery c gv kind resources hd).1
  | some e =>
    obtain ⟨rs, hrs, hmaps⟩ := hpop gv e hentry
    rw [hd] at hrs
    cases hrs
    have hscan : e.scan kind
        = (resources.find? fun r => decide (r.Kind = kind)).map (mappingOf gv) := by
      rw [← scan_enumeration gv resources e.valid kind, ← hmaps]
    cases hs : e.scan kind with
    | some mp =>
      rw [findRESTMapping_cached_hit discovery c gv kind e mp hentry hs, ← hscan, hs]
    | none =>
      rw [findRESTMapping_cached_miss discovery c gv kind e hentry hs]
      exact (fetchAndScan_ok discovery _ gv kind resources hd).1

end Cache

namespace Cache

variable {E : Type}

open ControllerRESTMapper

/-- Claim C6. On a cache populated from the transport, the lookup of a kind that the
transport enumerates for the group/version returns a mapping of that group, version and kind
whose resource name and scope are those of an enumerated resource of the kind (of `r` itself
when the transport reports the kind once), and `RESTMapping` for that group/kind and version
returns the same mapping. -/
theorem findRESTMapping_returns_enumerated (discovery : Discovery E) (c : State)
    (gv : Schema.GroupVersion) (r : APIResource) (resources : List APIResource)
    (hpop : PopulatedFrom discovery c) (hd : discovery gv = .ok resources)
    (hr : r ∈ resources) :
    ∃ r1, r1 ∈ resources ∧ r1.Kind = r.Kind ∧
      (findRESTMapping c discovery gv r.Kind).1 = (some (mappingOf gv r1), none) ∧
      (mappingOf gv r1).GroupVersionKind = ⟨gv.Group, gv.Version, r.Kind⟩ ∧
      (mappingOf gv r1).Resource = ⟨gv.Group, gv.Version, r1.Name⟩ ∧
      (mappingOf gv r1).Scope = (if r1.Namespaced then .Namespace else .Root) ∧
      (RESTMapping findRESTMapping ⟨discovery, c⟩ ⟨gv.Group, r.Kind⟩ [gv.Version]).1
        = (some (mappingOf gv r1), none) ∧
      ((∀ x, x ∈ resources → x.Kind = r.Kind → x = r) → r1 = r) := by
  have hsome : (resources.find? fun x => decide (x.Kind = r.Kind)).isSome := by
    rw [List.find?_isSome]
    exact ⟨r, hr, by simp⟩
  obtain ⟨r1, hr1⟩ := Option.isSome_iff_exists.mp hsome
  have hmem : r1 ∈ resources := List.mem_of_find?_eq_some hr1
  have hkind : r1.Kind = r.Kind := by simpa using List.find?_some hr1
  have hfind : (findRESTMapping c discovery gv r.Kind).1 = (some (mappingOf gv r1), none) := by
    rw [findRESTMapping_populated discovery c gv r.Kind resources hpop hd, hr1]
    rfl
  refine ⟨r1, hmem, hkind, hfind, ?_, rfl, rfl, ?_, fun h => h r1 hmem hkind⟩
  · simp [mappingOf, hkind]
  · simp only [RESTMapping]
    rw [RESTMappingLoop_hit findRESTMapping discovery ⟨gv.Group, r.Kind⟩ [gv.Version] c
      gv.Version [] (mappingOf gv r1) hfind]

/-- Every cache state reached from `newCache` by lookups is populated from the transport. -/
theorem populatedFrom_of_reachable (discovery : Discovery E) (c : State)
    (h : Reachable discovery c) : PopulatedFrom discovery c := by
  induction h with
  | newCache => exact populatedFrom_newCache discovery
  | lookup c gv kind _ ih => exact populatedFrom_findRESTMapping discovery c gv kind ih

/-- The lookup of a kind that the transport does not enumerate, on any cache populated from the
transport: NotFound, one fetch, and one retry exactly when an entry was cached; and a fetch
that fails is not repeated. -/
theorem findRESTMapping_absent_kind_of_populated (discovery : Discovery E) (c : State)
    (gv : Schema.GroupVersion) (kind : String) (resources : List APIResource)
    (hpop : PopulatedFrom discovery c) (hd : discovery gv = .ok resources)
    (habs : ∀ r, r ∈ resources → r.Kind ≠ kind) :
    (findRESTMapping c discovery gv kind).1 = (none, none) ∧
    (findRESTMapping c discovery gv kind).2.fetches ≤ c.fetches + 2 ∧
    (c.entry gv = none →
      (findRESTMapping c discovery gv kind).2.fetches = c.fetches + 1 ∧
      (findRESTMapping c discovery gv kind).2.retries = c.retries) ∧
    (c.entry gv ≠ none →
      (findRESTMapping c discovery gv kind).2.retries = c.retries + 1 ∧
      (findRESTMapping c discovery gv kind).2.fetches = c.fetches + 1) ∧
    (∀ (c1 : State) (gv1 : Schema.GroupVersion) (kind1 : String) (err : Error E),
      discovery gv1 = .error err →
      (findRESTMapping c1 discovery gv1 kind1).2.fetches ≤ c1.fetches + 1 ∧
      ((findRESTMapping c1 discovery gv1 kind1).2.fetches = c1.fetches + 1 →
        (findRESTMapping c1 discovery gv1 kind1).1 = (none, some err))) := by
  have hnone : (resources.find? fun r => decide (r.Kind = kind)) = none := by
    rw [List.find?_eq_none]
    intro x hx
    simpa using habs x hx
  have hres : (findRESTMapping c discovery gv kind).1 = (none, none) := by
    rw [findRESTMapping_populated discovery c gv kind resources hpop hd, hnone]
    rfl
  have hcount : (c.entry gv = none →
      (findRESTMapping c discovery gv kind).2.fetches = c.fetches + 1 ∧
      (findRESTMapping c discovery gv kind).2.retries = c.retries) ∧
    (c.entry gv ≠ none →
      (findRESTMapping c discovery gv kind).2.retries = c.retries + 1 ∧
      (findRESTMapping c discovery gv kind).2.fetches = c.fetches + 1) := by
    cases hentry : c.entry gv with
    | none =>
      refine ⟨fun _ => ?_, fun h => absurd rfl h⟩
      rw [findRESTMapping_absent discovery c gv kind hentry]
      exact (fetchAndScan_ok discovery c gv kind resources hd).2
    | some e =>
      refine ⟨fun h => (by cases h), fun _ => ?_⟩
      obtain ⟨rs, hrs, hmaps⟩ := hpop gv e hentry
      rw [hd] at hrs
      cases hrs
      have hscan : e.scan kind = none := by
        have := scan_enumeration gv resources e.valid kind
        rw [← hmaps, hnone] at this
        exact this
      rw [findRESTMapping_cached_miss discovery c gv kind e hentry hscan]
      have h := (fetchAndScan_ok discovery
        { c.invalidate gv with retries := c.retries + 1 } gv kind resources hd).2
      exact ⟨h.2, h.1⟩
  refine ⟨hres, ?_, hcount.1, hcount.2, ?_⟩
  · cases hentry : c.entry gv with
    | none => have := (hcount.1 hentry).1; omega
    | some e => have := (hcount.2 (by rw [hentry]; simp)).2; omega
  · intro c1 gv1 kind1 err herr
    cases hentry : c1.entry gv1 with
    | none =>
      rw [findRESTMapping_absent discovery c1 gv1 kind1 hentry]
      have h := fetchAndScan_error discovery c1 gv1 kind1 err herr
      exact ⟨Nat.le_of_eq h.2, fun _ => h.1⟩
    | some e =>
      cases hscan : e.scan kind1 with
      | some mp =>
        rw [findRESTMapping_cached_hit discovery c1 gv1 kind1 e mp hentry hscan]
        exact ⟨Nat.le_succ _, fun h => absurd h (by simp)⟩
      | none =>
        rw [findRESTMapping_cached_miss discovery c1 gv1 kind1 e hentry hscan]
        have h := fetchAndScan_error discovery
          { c1.invalidate gv1 with retries := c1.retries + 1 } gv1 kind1 err herr
        exact ⟨Nat.le_of_eq h.2, fun _ => h.1⟩

/-- Claim C7. On every cache state that lookups against the transport reach from the empty
cache, the lookup of a kind that the transport does not enumerate for the group/version
returns NotFound, the pair (nil, nil), after at most two fetches: exactly one fetch and no retry when no entry was cached, and one
retry, itself one fetch, after invalidating a cached entry. A fetch that fails is not
repeated: the lookup then makes at most one fetch and returns the error of that fetch. -/
theorem findRESTMapping_absent_kind (discovery : Discovery E) (c : State)
    (gv : Schema.GroupVersion) (kind : String) (resources : List APIResource)
    (hreach : Reachable discovery c) (hd : discovery gv = .ok resources)
    (habs : ∀ r, r ∈ resources → r.Kind ≠ kind) :
    (findRESTMapping c discovery gv kind).1 = (none, none) ∧
    (findRESTMapping c discovery gv kind).2.fetches ≤ c.fetches + 2 ∧
    (c.entry gv = none →
      (findRESTMapping c discovery gv kind).2.fetches = c.fetches + 1 ∧
      (findRESTMapping c discovery gv kind).2.retries = c.retries) ∧
    (c.entry gv ≠ none →
      (findRESTMapping c discovery gv kind).2.retries = c.retries + 1 ∧
      (findRESTMapping c discovery gv kind).2.fetches = c.fetches + 1) ∧
    (∀ (c1 : State) (gv1 : Schema.GroupVersion) (kind1 : String) (err : Error E),
      discovery gv1 = .error err →
      (findRESTMapping c1 discovery gv1 kind1).2.fetches ≤ c1.fetches + 1 ∧
      ((findRESTMapping c1 discovery gv1 kind1).2.fetches = c1.fetches + 1 →
        (findRESTMapping c1 discovery gv1 kind1).1 = (none, some err))) :=
  findRESTMapping_absent_kind_of_populated discovery c gv kind resources
    (populatedFrom_of_reachable discovery c hreach) hd habs

end Cache

/-- The instance of claim C6 on the scenario: on the cache left by an earlier lookup,
`apps/v1` `Deployment` resolves to resource `deployments`, namespaced. -/
theorem findRESTMapping_returns_enumerated_witness :
    Cache.PopulatedFrom Demo.discovery Demo.warm ∧
    (Cache.findRESTMapping Demo.warm Demo.discovery ⟨"apps", "v1"⟩ "Deployment").1
      = (some Demo.deployments, none) ∧
    (ControllerRESTMapper.RESTMapping Cache.findRESTMapping ⟨Demo.discovery, Demo.warm⟩
        Demo.deploymentKind ["v1"]).1 = (some Demo.deployments, none) := by
  have hpop : Cache.PopulatedFrom Demo.discovery Demo.warm :=
    Cache.populatedFrom_findRESTMapping Demo.discovery Cache.newCache ⟨"apps", "v1"⟩
      "Deployment" (Cache.populatedFrom_newCache Demo.discovery)
  obtain ⟨r1, -, -, hfind, -, -, -, hmap, huniq⟩ :=
    Cache.findRESTMapping_returns_enumerated Demo.discovery Demo.warm ⟨"apps", "v1"⟩
      ⟨"Deployment", "deployments", true⟩ _ hpop rfl (by decide)
  obtain rfl := huniq (by decide)
  exact ⟨hpop, hfind, hmap⟩

/-- The instance of claim C7 on the scenario: `apps/v1` `Widget` is NotFound, after one fetch
on the empty cache, and after one retry on the cache left by an earlier lookup. -/
theorem findRESTMapping_absent_kind_witness :
    ((Cache.findRESTMapping Demo.warm Demo.discovery ⟨"apps", "v1"⟩ "Widget").1 = (none, none) ∧
      (Cache.findRESTMapping Demo.warm Demo.discovery ⟨"apps", "v1"⟩ "Widget").2.fetches
        ≤ Demo.warm.fetches + 2) ∧
    Demo.warm.entry ⟨"apps", "v1"⟩ ≠ none ∧
    (Cache.findRESTMapping Demo.warm Demo.discovery ⟨"apps", "v1"⟩ "Widget").2.retries = 1 ∧
    (Cache.findRESTMapping Demo.warm Demo.discovery ⟨"apps", "v1"⟩ "Widget").2.fetches = 2 := by
  have hreach : Cache.Reachable Demo.discovery Demo.warm :=
    Cache.Reachable.lookup Cache.newCache ⟨"apps", "v1"⟩ "Deployment" Cache.Reachable.newCache
  have h := Cache.findRESTMapping_absent_kind Demo.discovery Demo.warm ⟨"apps", "v1"⟩ "Widget"
    _ hreach rfl (by decide)
  have hentry : Demo.warm.entry ⟨"apps", "v1"⟩ ≠ none := by decide
  exact ⟨⟨h.1, h.2.1⟩, hentry, (h.2.2.2.1 hentry).1, (h.2.2.2.1 hentry).2⟩

/-! ## The applier -/

namespace Applier

variable {M R DC X V I O : Type}

/-- Claim C8, on the code. `Apply` returns the same for options that differ in `RESTMapper`
and `RESTConfig` only, whatever the libraries do: the resolver of the options never reaches
them. `ApplyOld` hands the resolver of the options to the resource builder, and with
libraries in which only mapper `1` resolves the manifest it tells mapper `1` from mapper `2`
and from a nil mapper, where `Apply` does not. -/
theorem Apply_ignores_RESTMapper :
    (∀ (lib : Kubectl M R DC X V I O) (opt : ApplierOptions M R) (mapper : Option M)
        (config : Option R),
      Apply lib { opt with RESTMapper := mapper, RESTConfig := config } = Apply lib opt) ∧
    (∀ (opt : ApplierOptions M R),
      (ApplyOldGetter opt : staticRESTClientGetter M R DC).RESTMapper = opt.RESTMapper ∧
      (ApplyOldGetter opt : staticRESTClientGetter M R DC).RESTConfig = opt.RESTConfig) ∧
    ApplyOld Demo.kubectl (Demo.options (some 1)) = none ∧
    ApplyOld Demo.kubectl (Demo.options (some 2)) = some "no matches for kind" ∧
    ApplyOld Demo.kubectl (Demo.options none) = some "RESTMapper not set" ∧
    Apply Demo.kubectl (Demo.options (some 1)) = some "no matches for kind" ∧
    Apply Demo.kubectl (Demo.options (some 2)) = some "no matches for kind" ∧
    Apply Demo.kubectl (Demo.options none) = some "no matches for kind" := by
  refine ⟨fun lib opt mapper config => rfl, fun opt => ⟨rfl, rfl⟩, ?_, ?_, ?_, ?_, ?_, ?_⟩ <;>
    decide

end Applier
